import Mathlib

/-!
Shallow embedding of the weather CLI (`src/main.rs`) and verification of its
specification claims.

Modelling conventions:
* Rust `f64` values are modelled as `ℚ` (the program only ever applies the
  exact affine map `c * 9 / 5 + 32` and one-decimal rendering to them).
* Rust `i32` / `i64` are modelled as `Int`; the JSON decoder checks the
  32-bit and 64-bit ranges exactly as serde does.
* Fallible or panicking operations return `Option` / `Except`; `none` models
  a panic (an `unwrap` failure or an out-of-bounds index).
* Third-party library behaviour used by the program (chrono timestamp
  formatting, serde JSON field decoding, the `http` success-status range,
  Rust ASCII lowercasing) is modelled faithfully from those libraries'
  documented semantics, since only `main.rs` is part of the repository.
-/

namespace WeatherCli

/-- Model of Rust `str::to_lowercase` restricted to ASCII, which is the only
range exercised by the program's condition labels and quit keywords.  Reuses
Lean's `Char.toLower`, which lowers exactly the basic latin letters. -/
def lowerString (s : String) : String :=
  ⟨s.data.map Char.toLower⟩

/-- Model of Rust `str::trim`: whitespace stripped from both ends (the
program's inputs only exercise ASCII whitespace, which is what
`Char.isWhitespace` covers). -/
def trimString (s : String) : String :=
  ⟨((s.data.dropWhile Char.isWhitespace).reverse.dropWhile Char.isWhitespace).reverse⟩

/-- Two-digit zero padding, as produced by chrono's `%H`, `%M`, `%S`
format specifiers. -/
def pad2 (n : Nat) : String :=
  if n < 10 then "0" ++ toString n else toString n

/-- Earliest Unix timestamp representable by a chrono `NaiveDateTime`
(midnight of January 1, year -262144, proleptic Gregorian). -/
def minChronoTs : Int := -8334632851200

/-- Latest Unix timestamp representable by a chrono `NaiveDateTime`
(last second of December 31, year 262143, proleptic Gregorian). -/
def maxChronoTs : Int := 8210298412799

/-- Whether `Utc.timestamp_opt(t, 0)` yields `LocalResult::Single` —
that is, `t` lies in chrono's representable datetime range. -/
def tsInRange (t : Int) : Prop := minChronoTs ≤ t ∧ t ≤ maxChronoTs

instance (t : Int) : Decidable (tsInRange t) := by
  unfold tsInRange; infer_instance

/-- Embedding of `format_timestamp` (src/main.rs:219-224).
`Utc.timestamp_opt(timestamp, 0).unwrap()` panics (here: `none`) when the
timestamp is outside chrono's datetime range; `FixedOffset::east_opt(z)
.unwrap()` panics when `z` is not strictly between -86400 and 86400.
Otherwise chrono formats the fixed-offset local time `t + z` with
`"%H:%M:%S"`, i.e. the Euclidean time-of-day of `t + z` rendered as
zero-padded `HH:MM:SS`. -/
def format_timestamp (timestamp : Int) (timezone_offset : Int) : Option String :=
  if ¬ tsInRange timestamp then none
  else if timezone_offset ≤ -86400 ∨ 86400 ≤ timezone_offset then none
  else
    let tod : Nat := (Int.emod (timestamp + timezone_offset) 86400).toNat
    some (pad2 (tod / 3600) ++ ":" ++ pad2 (tod % 3600 / 60) ++ ":" ++ pad2 (tod % 60))

/-- Embedding of `celsius_to_fahrenheit` (src/main.rs:215-217). -/
def celsius_to_fahrenheit (celsius : ℚ) : ℚ :=
  (celsius * 9 / 5) + 32

/-- Rounding of a rational to the nearest integer with ties to even, the
rounding used by Rust's `{:.1}` float formatting at the digit level.  The
comparison of the fractional part against one half is carried out on the
numerator and denominator directly: with `f = ⌊q⌋`, the fraction `q - f`
equals `(q.num - f * q.den) / q.den`. -/
def roundHalfEven (q : ℚ) : Int :=
  let f := Rat.floor q
  let r2 : Int := 2 * (q.num - f * q.den)
  if r2 < q.den then f
  else if (q.den : Int) < r2 then f + 1
  else if Int.emod f 2 = 0 then f else f + 1

/-- Model of Rust `format!("{:.1}", v)`: the value rounded to tenths
(`mkRat (q.num * 10) q.den` is `10 * q`) and printed with exactly one
digit after the decimal point. -/
def fmt1 (q : ℚ) : String :=
  let t : Nat := (roundHalfEven (mkRat (q.num * 10) q.den)).natAbs
  (if q < 0 then "-" else "") ++ toString (t / 10) ++ "." ++ toString (t % 10)

/-- Embedding of `get_weather_emoji` (src/main.rs:201-213): a Rust `match`
on the lowercased condition label, i.e. a chain of string equality tests
with a catch-all default. -/
def get_weather_emoji (condition : String) : String :=
  let c := lowerString condition
  if c = "clear" then "☀️"
  else if c = "thunderstorm" then "⛈️"
  else if c = "drizzle" then "🌦️"
  else if c = "rain" then "🌧️"
  else if c = "snow" then "❄️"
  else if c = "mist" ∨ c = "smoke" ∨ c = "haze" ∨ c = "dust" ∨ c = "fog"
      ∨ c = "sand" ∨ c = "ash" ∨ c = "squall" then "🌫️"
  else if c = "clouds" then "☁️"
  else if c = "tornado" then "🌪️"
  else "🌤️"

/-- Embedding of struct `Coord` (src/main.rs:243-247). -/
structure Coord where
  lon : ℚ
  lat : ℚ
deriving DecidableEq, Repr

/-- Embedding of struct `Weather` (src/main.rs:249-255). -/
structure Weather where
  id : Int
  main : String
  description : String
  icon : String
deriving DecidableEq, Repr

/-- Embedding of struct `Main` (src/main.rs:257-267); `sea_level` and
`grnd_level` are `Option<i32>` in the source. -/
structure Main where
  temp : ℚ
  feels_like : ℚ
  temp_min : ℚ
  temp_max : ℚ
  pressure : Int
  humidity : Int
  sea_level : Option Int
  grnd_level : Option Int
deriving DecidableEq, Repr

/-- Embedding of struct `Wind` (src/main.rs:269-274); `gust` is
`Option<f64>` in the source. -/
structure Wind where
  speed : ℚ
  deg : Int
  gust : Option ℚ
deriving DecidableEq, Repr

/-- Embedding of struct `Clouds` (src/main.rs:276-279). -/
structure Clouds where
  all : Int
deriving DecidableEq, Repr

/-- Embedding of struct `Sys` (src/main.rs:281-286). -/
structure Sys where
  country : String
  sunrise : Int
  sunset : Int
deriving DecidableEq, Repr

/-- Embedding of struct `WeatherData` (src/main.rs:226-241). -/
structure WeatherData where
  coord : Coord
  weather : List Weather
  base : String
  main : Main
  visibility : Int
  wind : Wind
  clouds : Clouds
  dt : Int
  sys : Sys
  timezone : Int
  id : Int
  name : String
  cod : Int
deriving DecidableEq, Repr

/-- The divider line printed before and after the report block. -/
def divider : String := "═════════════════════════════════════════"

/-- Embedding of `display_weather` (src/main.rs:114-199) as the ordered list
of lines written to standard output (ANSI colour codes from the `colored`
crate are omitted; they do not change the text content).  `weather.weather[0]`
panics when the condition list is empty, and `format_timestamp` can panic;
both panics are modelled as `none`. -/
def display_weather (weather : WeatherData) (use_fahrenheit : Bool) : Option (List String) :=
  match weather.weather with
  | [] => none
  | w0 :: _ =>
    let weather_icon := get_weather_emoji w0.main
    let temp := if use_fahrenheit
      then fmt1 (celsius_to_fahrenheit weather.main.temp) ++ "°F"
      else fmt1 weather.main.temp ++ "°C"
    let feels_like := if use_fahrenheit
      then fmt1 (celsius_to_fahrenheit weather.main.feels_like) ++ "°F"
      else fmt1 weather.main.feels_like ++ "°C"
    let temp_min := if use_fahrenheit
      then fmt1 (celsius_to_fahrenheit weather.main.temp_min) ++ "°F"
      else fmt1 weather.main.temp_min ++ "°C"
    let temp_max := if use_fahrenheit
      then fmt1 (celsius_to_fahrenheit weather.main.temp_max) ++ "°F"
      else fmt1 weather.main.temp_max ++ "°C"
    match format_timestamp weather.sys.sunrise weather.timezone,
          format_timestamp weather.sys.sunset weather.timezone with
    | some sunrise, some sunset =>
      some ([ "\n" ++ divider,
              "🌍 Weather in " ++ weather.name ++ ", " ++ weather.sys.country,
              weather_icon ++ " " ++ w0.main ++ " (" ++ w0.description ++ ")",
              "🌡️ Temperature: " ++ temp ++ " (feels like " ++ feels_like ++ ")",
              "📊 Min/Max: " ++ temp_min ++ "/" ++ temp_max,
              "💧 Humidity: " ++ toString weather.main.humidity ++ "%",
              "🔄 Pressure: " ++ toString weather.main.pressure ++ " hPa",
              "💨 Wind: " ++ fmt1 weather.wind.speed ++ " m/s, Direction: "
                ++ toString weather.wind.deg ++ "°" ]
            ++ (match weather.wind.gust with
                | some gust => ["🌬️ Gusts: " ++ fmt1 gust ++ " m/s"]
                | none => [])
            ++ [ "👁️ Visibility: " ++ toString (Int.tdiv weather.visibility 1000) ++ " km",
                 "☁️ Cloudiness: " ++ toString weather.clouds.all ++ "%",
                 "🌅 Sunrise: " ++ sunrise,
                 "🌇 Sunset: " ++ sunset,
                 divider ])
    | _, _ => none

/-- A JSON value, as decoded by serde_json (numbers kept exact as `ℚ`). -/
inductive Json where
  | null : Json
  | bool (b : Bool) : Json
  | num (q : ℚ) : Json
  | str (s : String) : Json
  | arr (items : List Json) : Json
  | obj (fields : List (String × Json)) : Json

/-- First value bound to key `k`, when the value is an object holding it. -/
def Json.getField (j : Json) (k : String) : Option Json :=
  match j with
  | .obj fields => fields.lookup k
  | _ => none

/-- Decoding of a JSON value as an `f64` (serde: any JSON number). -/
def Json.asF64 (j : Json) : Except String ℚ :=
  match j with
  | .num q => .ok q
  | _ => .error "invalid type: expected f64"

/-- Decoding of a JSON value as an `i32` (serde: an integral number in the
32-bit signed range). -/
def Json.asI32 (j : Json) : Except String Int :=
  match j with
  | .num q =>
    if q.den = 1 ∧ -2147483648 ≤ q.num ∧ q.num ≤ 2147483647 then .ok q.num
    else .error "invalid value: out of range for i32"
  | _ => .error "invalid type: expected i32"

/-- Decoding of a JSON value as an `i64` (serde: an integral number in the
64-bit signed range). -/
def Json.asI64 (j : Json) : Except String Int :=
  match j with
  | .num q =>
    if q.den = 1 ∧ -9223372036854775808 ≤ q.num ∧ q.num ≤ 9223372036854775807 then .ok q.num
    else .error "invalid value: out of range for i64"
  | _ => .error "invalid type: expected i64"

/-- Decoding of a JSON value as a string. -/
def Json.asStr (j : Json) : Except String String :=
  match j with
  | .str s => .ok s
  | _ => .error "invalid type: expected string"

/-- Serde semantics for a required struct field: absence is an error. -/
def reqField (j : Json) (k : String) (f : Json → Except String α) : Except String α :=
  match j.getField k with
  | some v => f v
  | none => .error ("missing field `" ++ k ++ "`")

/-- Serde semantics for an `Option<T>` struct field: an absent or null
field decodes to `None`. -/
def optField (j : Json) (k : String) (f : Json → Except String α) :
    Except String (Option α) :=
  match j.getField k with
  | none => .ok none
  | some .null => .ok none
  | some v => (f v).map some

/-- Serde-derived decoder for struct `Coord` (src/main.rs:243-247). -/
def decodeCoord (j : Json) : Except String Coord := do
  let lon ← reqField j "lon" Json.asF64
  let lat ← reqField j "lat" Json.asF64
  return { lon := lon, lat := lat }

/-- Serde-derived decoder for struct `Weather` (src/main.rs:249-255). -/
def decodeWeatherItem (j : Json) : Except String Weather := do
  let id ← reqField j "id" Json.asI32
  let main ← reqField j "main" Json.asStr
  let description ← reqField j "description" Json.asStr
  let icon ← reqField j "icon" Json.asStr
  return { id := id, main := main, description := description, icon := icon }

/-- Serde-derived decoder for struct `Main` (src/main.rs:257-267):
`sea_level` and `grnd_level` tolerate absence, all other fields are
required. -/
def decodeMain (j : Json) : Except String Main := do
  let temp ← reqField j "temp" Json.asF64
  let feels_like ← reqField j "feels_like" Json.asF64
  let temp_min ← reqField j "temp_min" Json.asF64
  let temp_max ← reqField j "temp_max" Json.asF64
  let pressure ← reqField j "pressure" Json.asI32
  let humidity ← reqField j "humidity" Json.asI32
  let sea_level ← optField j "sea_level" Json.asI32
  let grnd_level ← optField j "grnd_level" Json.asI32
  return { temp := temp, feels_like := feels_like, temp_min := temp_min,
           temp_max := temp_max, pressure := pressure, humidity := humidity,
           sea_level := sea_level, grnd_level := grnd_level }

/-- Serde-derived decoder for struct `Wind` (src/main.rs:269-274):
`gust` tolerates absence, the other fields are required. -/
def decodeWind (j : Json) : Except String Wind := do
  let speed ← reqField j "speed" Json.asF64
  let deg ← reqField j "deg" Json.asI32
  let gust ← optField j "gust" Json.asF64
  return { speed := speed, deg := deg, gust := gust }

/-- Serde-derived decoder for struct `Clouds` (src/main.rs:276-279). -/
def decodeClouds (j : Json) : Except String Clouds := do
  let all ← reqField j "all" Json.asI32
  return { all := all }

/-- Serde-derived decoder for struct `Sys` (src/main.rs:281-286). -/
def decodeSys (j : Json) : Except String Sys := do
  let country ← reqField j "country" Json.asStr
  let sunrise ← reqField j "sunrise" Json.asI64
  let sunset ← reqField j "sunset" Json.asI64
  return { country := country, sunrise := sunrise, sunset := sunset }

/-- Serde decoder for a `Vec<Weather>` field. -/
def decodeWeatherList (j : Json) : Except String (List Weather) :=
  match j with
  | .arr items => items.mapM decodeWeatherItem
  | _ => .error "invalid type: expected array"

/-- Serde-derived decoder for struct `WeatherData` (src/main.rs:226-241):
every field is required; unknown fields are ignored (serde default). -/
def decodeWeatherData (j : Json) : Except String WeatherData := do
  let coord ← reqField j "coord" decodeCoord
  let weather ← reqField j "weather" decodeWeatherList
  let base ← reqField j "base" Json.asStr
  let main ← reqField j "main" decodeMain
  let visibility ← reqField j "visibility" Json.asI32
  let wind ← reqField j "wind" decodeWind
  let clouds ← reqField j "clouds" decodeClouds
  let dt ← reqField j "dt" Json.asI64
  let sys ← reqField j "sys" decodeSys
  let timezone ← reqField j "timezone" Json.asI32
  let id ← reqField j "id" Json.asI64
  let name ← reqField j "name" Json.asStr
  let cod ← reqField j "cod" Json.asI32
  return { coord := coord, weather := weather, base := base, main := main,
           visibility := visibility, wind := wind, clouds := clouds, dt := dt,
           sys := sys, timezone := timezone, id := id, name := name, cod := cod }

/-- The classified failures produced by `get_city_weather`
(src/main.rs:101-111); in the source they are `format!`-ed strings boxed
as `Box<dyn Error>`, kept here as a tagged type whose `render` gives the
exact message text. -/
inductive WeatherError where
  | cityNotFound (city : String) : WeatherError
  | apiError (status : Nat) : WeatherError
  | decodeError (msg : String) : WeatherError
deriving DecidableEq, Repr

/-- Message text of each error, as built by the `format!` calls in
src/main.rs:104 and 106.  The `http` crate's `Display` for a status also
appends the canonical reason phrase after the numeric code; the model keeps
the numeric code, which is the part the specification speaks about. -/
def WeatherError.render : WeatherError → String
  | .cityNotFound city => "City '" ++ city ++ "' not found"
  | .apiError status => "API error: HTTP " ++ toString status
  | .decodeError msg => msg

/-- reqwest `StatusCode::is_success`: the range 200..=299. -/
def statusIsSuccess (status : Nat) : Bool :=
  200 ≤ status && status ≤ 299

/-- Embedding of the response handling of `get_city_weather`
(src/main.rs:101-111), from the received HTTP status and body onward:
a non-success status short-circuits into `cityNotFound` (for 404) or
`apiError` (any other), and only a success status reaches the JSON
decoder, whose failure becomes `decodeError`. -/
def get_city_weather (city : String) (status : Nat) (body : Json) :
    Except WeatherError WeatherData :=
  if ¬ statusIsSuccess status then
    if status = 404 then .error (.cityNotFound city)
    else .error (.apiError status)
  else
    match decodeWeatherData body with
    | .ok w => .ok w
    | .error e => .error (.decodeError e)

/-- Wrapping of a fetch failure by `get_and_display_weather`
(src/main.rs:83). -/
def fetchMessage (city : String) (e : WeatherError) : String :=
  "Failed to get weather data for '" ++ city ++ "': " ++ e.render

/-- The two control states of the interactive driver (spec section 4.3). -/
inductive LoopState where
  | awaitingInput : LoopState
  | done : LoopState
deriving DecidableEq, Repr

/-- The quit test of the interactive loop (src/main.rs:49):
`city.to_lowercase() == "q" || city.to_lowercase() == "exit"`, applied to
the already-trimmed input. -/
def isQuit (city : String) : Bool :=
  lowerString city == "q" || lowerString city == "exit"

/-- One iteration of the interactive loop (src/main.rs:46-60) on a raw
input line: `get_input` trims the line, the quit test decides between
terminating and performing a fetch-and-display cycle.  The boolean records
whether a fetch-and-display cycle was triggered. -/
def loopStep (line : String) : LoopState × Bool :=
  let city := trimString line
  if isQuit city then (.done, false) else (.awaitingInput, true)

/-- The interactive loop run over a list of raw input lines, with the
fetch-and-display cycle abstracted as an oracle giving each query's
outcome.  The result is the exit code together with the error lines
written to standard error, or `none` when the input list is exhausted
before a quit keyword (the real loop would keep prompting).  A failed
query is printed with the `Error:` prefix (src/main.rs:56) and the loop
continues. -/
def runLoop (fetch : String → Except String Unit) :
    List String → Option (Nat × List String)
  | [] => none
  | line :: rest =>
    let city := trimString line
    if isQuit city then some (0, [])
    else
      match fetch city with
      | .ok _ => runLoop fetch rest
      | .error e => (runLoop fetch rest).map (fun p => (p.1, ("Error: " ++ e) :: p.2))

/-- The startup error line printed when the API key is missing
(src/main.rs:26-29). -/
def configErrorLine : String :=
  "Error: OPEN_WEATHER_MAP_API environment variable not set. Please add it to your .env file."

/-- Embedding of `main` (src/main.rs:20-64): exit code and standard-error
lines, given the optional API key, the optional `--city` argument, the
per-query outcome oracle and the standard-input lines.  A missing API key
exits with code 1 (src/main.rs:30); otherwise one-shot mode reports a
failure with the `Error:` prefix and still falls through to `Ok(())`,
i.e. exit code 0 (src/main.rs:36-40, 63). -/
def mainModel (apiKey : Option String) (cityArg : Option String)
    (fetch : String → Except String Unit) (stdinLines : List String) :
    Option (Nat × List String) :=
  match apiKey with
  | none => some (1, [configErrorLine])
  | some _ =>
    match cityArg with
    | some city =>
      match fetch city with
      | .ok _ => some (0, [])
      | .error e => some (0, ["Error: " ++ e])
    | none => runLoop fetch stdinLines

/-- The set of condition labels with a dedicated emoji in
`get_weather_emoji`. -/
def emojiKeys : List String :=
  ["clear", "thunderstorm", "drizzle", "rain", "snow", "mist", "smoke", "haze",
   "dust", "fog", "sand", "ash", "squall", "clouds", "tornado"]

/-- The emoji table stated by the specification, together with the three
mixed-case variants of "rain" it lists. -/
def emojiTableSpec : List (String × String) :=
  [("clear", "☀️"), ("thunderstorm", "⛈️"), ("drizzle", "🌦️"), ("rain", "🌧️"),
   ("snow", "❄️"), ("mist", "🌫️"), ("smoke", "🌫️"), ("haze", "🌫️"),
   ("dust", "🌫️"), ("fog", "🌫️"), ("sand", "🌫️"), ("ash", "🌫️"),
   ("squall", "🌫️"), ("clouds", "☁️"), ("tornado", "🌪️"),
   ("Rain", "🌧️"), ("RAIN", "🌧️")]

/-- The temperature rendering applied by `display_weather` to each of its
four temperature fields (src/main.rs:136-165): the Fahrenheit conversion
applied exactly when Fahrenheit is requested (Celsius passed through),
one-decimal formatting, and the matching unit suffix. -/
def tempRender (v : ℚ) (use_fahrenheit : Bool) : String :=
  if use_fahrenheit then fmt1 (celsius_to_fahrenheit v) ++ "°F"
  else fmt1 v ++ "°C"

/-- A concrete decoded report, used to instantiate the universally
quantified theorems at an evaluable input. -/
def exampleReport : WeatherData :=
  { coord := { lon := 74, lat := 18 }
  , weather := [{ id := 500, main := "Rain", description := "light rain", icon := "10d" }]
  , base := "stations"
  , main := { temp := 25, feels_like := 26, temp_min := 24, temp_max := 27,
              pressure := 1013, humidity := 60, sea_level := none, grnd_level := none }
  , visibility := 10999
  , wind := { speed := 4, deg := 180, gust := none }
  , clouds := { all := 40 }
  , dt := 1700000000
  , sys := { country := "IN", sunrise := 1700000000, sunset := 1700040000 }
  , timezone := 19800
  , id := 1259229
  , name := "Pune"
  , cod := 200 }

/-- The example report with an empty condition list. -/
def emptyConditionReport : WeatherData :=
  { exampleReport with weather := [] }

/-- Removal of a key from a JSON object (no effect on other values). -/
def Json.eraseField (j : Json) (k : String) : Json :=
  match j with
  | .obj fields => .obj (fields.filter fun p => p.1 != k)
  | _ => j

/-- Replacement of the value bound to a key in a JSON object. -/
def Json.setField (j : Json) (k : String) (v : Json) : Json :=
  match j with
  | .obj fields => .obj (fields.map fun p => if p.1 == k then (k, v) else p)
  | _ => j

/-- Removal of the field reached by a nested key path. -/
def eraseAt (j : Json) : List String → Json
  | [] => j
  | [k] => j.eraseField k
  | k :: ks =>
    match j.getField k with
    | some v => j.setField k (eraseAt v ks)
    | none => j

/-- A complete well-formed API payload, with the three optional fields
(`main.sea_level`, `main.grnd_level`, `wind.gust`) present. -/
def examplePayload : Json :=
  .obj [("coord", .obj [("lon", .num 74), ("lat", .num 18)]),
        ("weather", .arr [.obj [("id", .num 500), ("main", .str "Rain"),
                                ("description", .str "light rain"), ("icon", .str "10d")]]),
        ("base", .str "stations"),
        ("main", .obj [("temp", .num (mkRat 2995 100)), ("feels_like", .num 31),
                       ("temp_min", .num 29), ("temp_max", .num 31),
                       ("pressure", .num 1008), ("humidity", .num 64),
                       ("sea_level", .num 1008), ("grnd_level", .num 1001)]),
        ("visibility", .num 10000),
        ("wind", .obj [("speed", .num (mkRat 35 10)), ("deg", .num 210),
                       ("gust", .num (mkRat 47 10))]),
        ("clouds", .obj [("all", .num 40)]),
        ("dt", .num 1700000000),
        ("sys", .obj [("country", .str "IN"), ("sunrise", .num 1699924000),
                      ("sunset", .num 1699966000)]),
        ("timezone", .num 19800),
        ("id", .num 1259229),
        ("name", .str "Pune"),
        ("cod", .num 200)]

/-- The key paths of the three optional fields of the data model. -/
def optionalPaths : List (List String) :=
  [["main", "sea_level"], ["main", "grnd_level"], ["wind", "gust"]]

/-- The key paths of every required field of the data model (top-level
struct fields and the required fields of the nested structs). -/
def requiredPaths : List (List String) :=
  [["coord"], ["coord", "lon"], ["coord", "lat"], ["weather"], ["base"],
   ["main"], ["main", "temp"], ["main", "feels_like"], ["main", "temp_min"],
   ["main", "temp_max"], ["main", "pressure"], ["main", "humidity"],
   ["visibility"], ["wind"], ["wind", "speed"], ["wind", "deg"], ["clouds"],
   ["clouds", "all"], ["dt"], ["sys"], ["sys", "country"], ["sys", "sunrise"],
   ["sys", "sunset"], ["timezone"], ["id"], ["name"], ["cod"]]

theorem char_toLower_idem (c : Char) : (Char.toLower c).toLower = Char.toLower c := by
  unfold Char.toLower
  by_cases h : c.toNat ≥ 65 ∧ c.toNat ≤ 90
  · rw [if_pos h]
    have hv : Nat.isValidChar (c.toNat + 32) := Or.inl (by omega)
    have ht : (Char.ofNat (c.toNat + 32)).toNat = c.toNat + 32 := by
      rw [Char.ofNat, dif_pos hv]
      rfl
    rw [ht, if_neg (by omega)]
  · rw [if_neg h, if_neg h]

theorem lowerString_idem (s : String) : lowerString (lowerString s) = lowerString s := by
  unfold lowerString
  simp only [List.map_map]
  congr 1
  apply List.map_congr_left
  intro c _
  exact char_toLower_idem c

/-- C4: the condition-emoji lookup is total and case-insensitive — for every
string, lookup agrees with lookup of its lowercasing; the fixed table maps
clear, thunderstorm, drizzle, rain, snow, the eight haze-like labels, clouds
and tornado to their emoji (in particular "Rain", "rain" and "RAIN" all map
to the rain emoji); and every label whose lowercasing is not in the table
falls back to the default partly-cloudy emoji. -/
theorem emoji_lookup_case_insensitive_total :
    (∀ s : String, get_weather_emoji s = get_weather_emoji (lowerString s))
    ∧ (∀ p ∈ emojiTableSpec, get_weather_emoji p.1 = p.2)
    ∧ (∀ s : String, lowerString s ∉ emojiKeys → get_weather_emoji s = "🌤️") := by
  refine ⟨?_, by decide, ?_⟩
  · intro s
    simp only [get_weather_emoji, lowerString_idem]
  · intro s hs
    simp only [emojiKeys, List.mem_cons, List.not_mem_nil, or_false, not_or] at hs
    obtain ⟨h1, h2, h3, h4, h5, h6, h7, h8, h9, h10, h11, h12, h13, h14, h15⟩ := hs
    simp only [get_weather_emoji]
    rw [if_neg h1, if_neg h2, if_neg h3, if_neg h4, if_neg h5,
        if_neg (by simp only [not_or]; exact ⟨h6, h7, h8, h9, h10, h11, h12, h13⟩),
        if_neg h14, if_neg h15]

/-- Witness for C4: the mixed-case "Rain" hits the table and an unknown
label falls back to the default emoji. -/
theorem emoji_lookup_case_insensitive_total_witness :
    get_weather_emoji "Rain" = "🌧️" ∧ get_weather_emoji "Sunshower" = "🌤️" :=
  ⟨emoji_lookup_case_insensitive_total.2.1 ("Rain", "🌧️") (by decide),
   emoji_lookup_case_insensitive_total.2.2 "Sunshower" (by decide)⟩

/-- C1: `format_timestamp` renders local clock time as zero-padded 24-hour
`HH:MM:SS` obtained by the fixed shift of `z` seconds applied to `t` (the
rendered digits encode exactly the Euclidean time-of-day of `t + z`, so no
incorrect wrapping across day boundaries is possible), and it agrees with
rendering the pre-shifted timestamp at offset zero; timestamp 0 at offset 0
gives "00:00:00" and timestamp 3600 at offset -3600 gives "00:00:00". -/
theorem format_timestamp_fixed_offset :
    format_timestamp 0 0 = some "00:00:00"
    ∧ format_timestamp 3600 (-3600) = some "00:00:00"
    ∧ (∀ t z : Int, tsInRange t → -86400 < z → z < 86400 →
        ∃ h m s : Nat, format_timestamp t z
            = some (pad2 h ++ ":" ++ pad2 m ++ ":" ++ pad2 s)
          ∧ h < 24 ∧ m < 60 ∧ s < 60
          ∧ ((h * 3600 + m * 60 + s : Nat) : Int) = Int.emod (t + z) 86400)
    ∧ (∀ t z : Int, tsInRange t → tsInRange (t + z) → -86400 < z → z < 86400 →
        format_timestamp t z = format_timestamp (t + z) 0) := by
  refine ⟨by decide, by decide, ?_, ?_⟩
  · intro t z ht h1 h2
    have hz : ¬(z ≤ -86400 ∨ 86400 ≤ z) := by omega
    rw [format_timestamp, if_neg (not_not_intro ht), if_neg hz]
    have h0 : 0 ≤ Int.emod (t + z) 86400 := Int.emod_nonneg _ (by norm_num)
    have hlt : Int.emod (t + z) 86400 < 86400 := Int.emod_lt_of_pos _ (by norm_num)
    refine ⟨(Int.emod (t + z) 86400).toNat / 3600,
            (Int.emod (t + z) 86400).toNat % 3600 / 60,
            (Int.emod (t + z) 86400).toNat % 60,
            rfl, by omega, by omega, by omega, by omega⟩
  · intro t z ht htz h1 h2
    have hz : ¬(z ≤ -86400 ∨ 86400 ≤ z) := by omega
    rw [format_timestamp, format_timestamp, if_neg (not_not_intro ht),
        if_neg (not_not_intro htz), if_neg hz,
        if_neg (by omega : ¬((0:Int) ≤ -86400 ∨ (86400:Int) ≤ 0))]
    norm_num

/-- Witness for C1 at a concrete timestamp and offset. -/
theorem format_timestamp_fixed_offset_witness :
    (∃ h m s : Nat, format_timestamp 1700000000 19800
        = some (pad2 h ++ ":" ++ pad2 m ++ ":" ++ pad2 s)
      ∧ h < 24 ∧ m < 60 ∧ s < 60
      ∧ ((h * 3600 + m * 60 + s : Nat) : Int) = Int.emod (1700000000 + 19800) 86400)
    ∧ format_timestamp 1700000000 19800 = format_timestamp (1700000000 + 19800) 0 :=
  ⟨format_timestamp_fixed_offset.2.2.1 1700000000 19800 (by decide) (by decide) (by decide),
   format_timestamp_fixed_offset.2.2.2 1700000000 19800 (by decide) (by decide)
     (by decide) (by decide)⟩

/-- C9: `format_timestamp` is total for a timestamp in chrono's datetime
range and an offset strictly between -86400 and 86400; for any offset of
magnitude 86400 or more it panics (modelled by `none`) instead of
returning an error value. -/
theorem format_timestamp_panics_on_large_offset :
    (∀ t z : Int, tsInRange t → -86400 < z → z < 86400 →
        (format_timestamp t z).isSome = true)
    ∧ (∀ t z : Int, 86400 ≤ z.natAbs → format_timestamp t z = none) := by
  constructor
  · intro t z ht h1 h2
    have hz : ¬(z ≤ -86400 ∨ 86400 ≤ z) := by omega
    rw [format_timestamp, if_neg (not_not_intro ht), if_neg hz]
    rfl
  · intro t z hz
    have hz2 : z ≤ -86400 ∨ (86400 : Int) ≤ z := by omega
    rw [format_timestamp]
    by_cases ht : tsInRange t
    · rw [if_neg (not_not_intro ht), if_pos hz2]
    · rw [if_pos ht]

/-- Witness for C9: a valid call succeeds, offsets of magnitude 86400
panic in both directions. -/
theorem format_timestamp_panics_on_large_offset_witness :
    (format_timestamp 1700000000 19800).isSome = true
    ∧ format_timestamp 0 86400 = none
    ∧ format_timestamp 0 (-86400) = none :=
  ⟨format_timestamp_panics_on_large_offset.1 1700000000 19800 (by decide)
      (by decide) (by decide),
   format_timestamp_panics_on_large_offset.2 0 86400 (by decide),
   format_timestamp_panics_on_large_offset.2 0 (-86400) (by decide)⟩

/-- C2: HTTP status 404 yields a city-not-found error whose message names
the requested city verbatim; every other non-success status yields an API
error carrying that numeric status code; and only a success status reaches
the JSON decoder. -/
theorem http_status_classification :
    ∀ (city : String) (status : Nat) (body : Json),
      (status = 404 →
        get_city_weather city status body = .error (.cityNotFound city)
        ∧ ∃ pre post, (WeatherError.cityNotFound city).render = pre ++ city ++ post)
      ∧ (statusIsSuccess status = false → status ≠ 404 →
          get_city_weather city status body = .error (.apiError status))
      ∧ (statusIsSuccess status = true →
          get_city_weather city status body =
            match decodeWeatherData body with
            | .ok w => .ok w
            | .error e => .error (.decodeError e)) := by
  intro city status body
  refine ⟨?_, ?_, ?_⟩
  · intro h
    subst h
    refine ⟨?_, "City '", "' not found", rfl⟩
    rw [get_city_weather, if_pos (by decide), if_pos rfl]
  · intro hs hne
    rw [get_city_weather, if_pos (by simp [hs]), if_neg hne]
  · intro hs
    rw [get_city_weather, if_neg (by simp [hs])]

/-- Witness for C2 at concrete statuses 404, 500 and 200. -/
theorem http_status_classification_witness :
    get_city_weather "Atlantis" 404 Json.null = .error (.cityNotFound "Atlantis")
    ∧ get_city_weather "Atlantis" 500 Json.null = .error (.apiError 500)
    ∧ get_city_weather "Atlantis" 200 Json.null =
        .error (.decodeError "missing field `coord`") := by
  refine ⟨((http_status_classification "Atlantis" 404 Json.null).1 rfl).1,
          (http_status_classification "Atlantis" 500 Json.null).2.1 (by decide) (by decide),
          ?_⟩
  rw [(http_status_classification "Atlantis" 200 Json.null).2.2 (by decide)]
  rfl

/-- C5: the displayed kilometre value is the metre value divided by 1000
with Rust `i32` division, which truncates toward zero (the quotient is the
sign times the truncated quotient of the absolute value); 10999 metres
render as 10 km and 999 metres as 0 km. -/
theorem visibility_km_truncation :
    (∀ (w : WeatherData) (f : Bool) (ls : List String), display_weather w f = some ls →
      ("👁️ Visibility: " ++ toString (Int.tdiv w.visibility 1000) ++ " km") ∈ ls)
    ∧ (∀ m : Int, Int.tdiv m 1000 = Int.sign m * ((m.natAbs / 1000 : Nat) : Int))
    ∧ Int.tdiv 10999 1000 = 10
    ∧ Int.tdiv 999 1000 = 0 := by
  refine ⟨?_, ?_, by decide, by decide⟩
  · intro w f ls h
    rw [display_weather] at h
    rcases hww : w.weather with _ | ⟨w0, rest⟩ <;> rw [hww] at h
    · exact absurd h (by simp)
    · rcases hsr : format_timestamp w.sys.sunrise w.timezone with _ | sr <;>
        rcases hss : format_timestamp w.sys.sunset w.timezone with _ | ss <;>
        simp only [hsr, hss] at h
      all_goals try exact Option.noConfusion h
      injection h with h
      subst h
      simp [List.mem_append]
  · intro m
    cases m with
    | ofNat k =>
      cases k with
      | zero => decide
      | succ n =>
        show Int.tdiv (Int.ofNat (n + 1)) 1000
          = Int.sign (Int.ofNat (n + 1)) * (((Int.ofNat (n + 1)).natAbs / 1000 : Nat) : Int)
        rw [show Int.sign (Int.ofNat (n + 1)) = 1 from rfl, one_mul]
        rfl
    | negSucc k =>
      show Int.tdiv (Int.negSucc k) 1000
        = Int.sign (Int.negSucc k) * (((Int.negSucc k).natAbs / 1000 : Nat) : Int)
      rw [show Int.sign (Int.negSucc k) = -1 from rfl, neg_one_mul]
      rfl

/-- Witness for C5: the example report displays its 10999 m visibility. -/
theorem visibility_km_truncation_witness :
    ∃ ls, display_weather exampleReport false = some ls ∧
      ("👁️ Visibility: " ++ toString (Int.tdiv exampleReport.visibility 1000) ++ " km") ∈ ls :=
  ⟨_, rfl, visibility_km_truncation.1 exampleReport false _ rfl⟩

/-- C10: `display_weather` requires a non-empty condition list: every report
whose condition list is empty makes it panic (modelled by `none`) rather
than print a report, and conversely any successfully printed report had a
non-empty condition list. -/
theorem display_weather_requires_condition :
    (∀ (w : WeatherData) (f : Bool), w.weather = [] → display_weather w f = none)
    ∧ (∀ (w : WeatherData) (f : Bool) (ls : List String),
        display_weather w f = some ls → w.weather ≠ []) := by
  constructor
  · intro w f h
    rw [display_weather, h]
  · intro w f ls h hemp
    rw [display_weather, hemp] at h
    exact Option.noConfusion h

/-- Witness for C10: the example report with an empty condition list makes
the display panic. -/
theorem display_weather_requires_condition_witness :
    display_weather emptyConditionReport false = none ∧
    display_weather emptyConditionReport true = none :=
  ⟨display_weather_requires_condition.1 emptyConditionReport false rfl,
   display_weather_requires_condition.1 emptyConditionReport true rfl⟩

/-- C3: the Fahrenheit conversion equals `c * 9 / 5 + 32` for every Celsius
input; all four displayed temperature fields (current, feels-like, min, max)
are rendered through the same `tempRender` — conversion exactly when
Fahrenheit is requested, pass-through otherwise, one decimal digit and the
unit suffix; and 0 °C, 100 °C and -40 °C convert to 32.0 °F, 212.0 °F and
-40.0 °F respectively. -/
theorem fahrenheit_conversion_spec :
    (∀ c : ℚ, celsius_to_fahrenheit c = c * 9 / 5 + 32)
    ∧ (∀ (w : WeatherData) (f : Bool) (ls : List String), display_weather w f = some ls →
        ("🌡️ Temperature: " ++ tempRender w.main.temp f
          ++ " (feels like " ++ tempRender w.main.feels_like f ++ ")") ∈ ls
        ∧ ("📊 Min/Max: " ++ tempRender w.main.temp_min f ++ "/"
          ++ tempRender w.main.temp_max f) ∈ ls)
    ∧ (∀ q : ℚ, ∃ pre d, fmt1 q = pre ++ "." ++ toString d ∧ d < 10)
    ∧ celsius_to_fahrenheit 0 = 32 ∧ tempRender 0 true = "32.0°F"
    ∧ celsius_to_fahrenheit 100 = 212 ∧ tempRender 100 true = "212.0°F"
    ∧ celsius_to_fahrenheit (-40) = -40 ∧ tempRender (-40) true = "-40.0°F"
    ∧ (∀ v : ℚ, tempRender v false = fmt1 v ++ "°C") := by
  have h0 : celsius_to_fahrenheit 0 = 32 := by unfold celsius_to_fahrenheit; norm_num
  have h100 : celsius_to_fahrenheit 100 = 212 := by unfold celsius_to_fahrenheit; norm_num
  have h40 : celsius_to_fahrenheit (-40) = -40 := by unfold celsius_to_fahrenheit; norm_num
  refine ⟨fun c => rfl, ?_, ?_, h0, ?_, h100, ?_, h40, ?_, fun v => rfl⟩
  · intro w f ls h
    rw [display_weather] at h
    rcases hww : w.weather with _ | ⟨w0, rest⟩ <;> rw [hww] at h
    · exact absurd h (by simp)
    · rcases hsr : format_timestamp w.sys.sunrise w.timezone with _ | sr <;>
        rcases hss : format_timestamp w.sys.sunset w.timezone with _ | ss <;>
        simp only [hsr, hss] at h
      all_goals try exact Option.noConfusion h
      injection h with h
      subst h
      constructor <;> simp [tempRender, List.mem_append]
  · intro q
    refine ⟨(if q < 0 then "-" else "")
        ++ toString ((roundHalfEven (mkRat (q.num * 10) q.den)).natAbs / 10),
      (roundHalfEven (mkRat (q.num * 10) q.den)).natAbs % 10, rfl,
      Nat.mod_lt _ (by decide)⟩
  · rw [tempRender, if_pos rfl, h0]; decide
  · rw [tempRender, if_pos rfl, h100]; decide
  · rw [tempRender, if_pos rfl, h40]; decide

/-- Witness for C3: the example report rendered in Fahrenheit contains the
temperature line built by `tempRender`. -/
theorem fahrenheit_conversion_spec_witness :
    ∃ ls, display_weather exampleReport true = some ls ∧
      ("🌡️ Temperature: " ++ tempRender exampleReport.main.temp true
        ++ " (feels like " ++ tempRender exampleReport.main.feels_like true ++ ")") ∈ ls :=
  ⟨_, rfl, (fahrenheit_conversion_spec.2.1 exampleReport true _ rfl).1⟩

/-- C6: one pass of the interactive loop terminates (state `done`) exactly
when the trimmed input case-insensitively equals "q" or "exit"; every other
trimmed input — including the empty string — triggers one fetch-and-display
cycle and keeps the loop awaiting input; "Q", "exit" and "EXIT" all quit;
and on a non-quit line the loop performs the cycle (reporting any error
with the `Error:` prefix) and continues with the remaining input. -/
theorem interactive_loop_transitions :
    (∀ line : String,
        ((loopStep line).1 = LoopState.done ↔
          (lowerString (trimString line) = "q" ∨ lowerString (trimString line) = "exit"))
        ∧ ((loopStep line).1 = LoopState.awaitingInput ↔ (loopStep line).2 = true))
    ∧ loopStep "Q" = (LoopState.done, false)
    ∧ loopStep "exit" = (LoopState.done, false)
    ∧ loopStep "EXIT" = (LoopState.done, false)
    ∧ loopStep "" = (LoopState.awaitingInput, true)
    ∧ loopStep "London" = (LoopState.awaitingInput, true)
    ∧ (∀ (fetch : String → Except String Unit) (line : String) (rest : List String),
        isQuit (trimString line) = false →
        runLoop fetch (line :: rest) =
          match fetch (trimString line) with
          | .ok _ => runLoop fetch rest
          | .error e => (runLoop fetch rest).map fun p => (p.1, ("Error: " ++ e) :: p.2)) := by
  refine ⟨?_, by decide, by decide, by decide, by decide, by decide, ?_⟩
  · intro line
    simp only [loopStep, isQuit]
    by_cases h1 : lowerString (trimString line) = "q" <;>
      by_cases h2 : lowerString (trimString line) = "exit" <;>
      simp [h1, h2]
  · intro fetch line rest h
    simp only [runLoop, h]
    rfl

/-- Witness for C6: a failing non-quit query is reported with the `Error:`
prefix and the loop continues to the quit line. -/
theorem interactive_loop_transitions_witness :
    runLoop (fun c => Except.error ("no data for " ++ c)) ["London", "q"]
      = some (0, ["Error: " ++ "no data for " ++ "London"]) := by
  rw [interactive_loop_transitions.2.2.2.2.2.2 (fun c => Except.error ("no data for " ++ c))
      "London" ["q"] (by decide)]
  rfl

theorem runLoop_code_zero (fetch : String → Except String Unit) :
    ∀ (lines : List String) (p : Nat × List String),
      runLoop fetch lines = some p → p.1 = 0 := by
  intro lines
  induction lines with
  | nil => intro p h; exact Option.noConfusion h
  | cons line rest ih =>
    intro p h
    simp only [runLoop] at h
    split at h
    · injection h with h
      subst h
      rfl
    · split at h
      · exact ih p h
      · rcases hr : runLoop fetch rest with _ | q <;> rw [hr] at h
        · exact Option.noConfusion h
        · injection h with h
          subst h
          exact ih q hr

/-- C7: the modelled process exits 0 exactly when the API key is present —
covering user-initiated quit in interactive mode and a recoverable one-shot
error, which is written to standard error with the `Error:` prefix while
the exit code stays 0 — and exits 1 (the only non-zero code) when the API
key is missing at startup. -/
theorem exit_code_policy :
    (∀ (apiKey cityArg : Option String) (fetch : String → Except String Unit)
        (stdin : List String) (code : Nat) (errs : List String),
        mainModel apiKey cityArg fetch stdin = some (code, errs) →
        (code = 0 ↔ apiKey.isSome = true))
    ∧ (∀ (key city : String) (fetch : String → Except String Unit)
        (stdin : List String) (msg : String), fetch city = .error msg →
        mainModel (some key) (some city) fetch stdin = some (0, ["Error: " ++ msg]))
    ∧ (∀ (key : String) (fetch : String → Except String Unit) (line : String)
        (rest : List String), isQuit (trimString line) = true →
        mainModel (some key) none fetch (line :: rest) = some (0, []))
    ∧ (∀ (cityArg : Option String) (fetch : String → Except String Unit)
        (stdin : List String),
        mainModel none cityArg fetch stdin = some (1, [configErrorLine])) := by
  refine ⟨?_, ?_, ?_, fun cityArg fetch stdin => rfl⟩
  · intro apiKey cityArg fetch stdin code errs h
    cases apiKey with
    | none =>
      simp only [mainModel] at h
      injection h with h
      rw [Prod.mk.injEq] at h
      simp [← h.1]
    | some k =>
      cases cityArg with
      | some city =>
        rcases hf : fetch city with _ | e <;> simp only [mainModel, hf] at h <;>
          injection h with h <;> rw [Prod.mk.injEq] at h <;> simp [← h.1]
      | none =>
        simp only [mainModel] at h
        have := runLoop_code_zero fetch stdin (code, errs) h
        simpa using this
  · intro key city fetch stdin msg h
    simp [mainModel, h]
  · intro key fetch line rest h
    simp [mainModel, runLoop, h]

/-- Witness for C7: a missing key exits 1; with a key, a failing one-shot
query and an interactive quit both exit 0. -/
theorem exit_code_policy_witness :
    (0 = 0 ↔ (some "k" : Option String).isSome = true)
    ∧ mainModel (some "k") (some "Paris") (fun _ => .error "boom") []
        = some (0, ["Error: " ++ "boom"])
    ∧ mainModel (some "k") none (fun _ => .ok ()) ["q"] = some (0, [])
    ∧ mainModel none none (fun _ => .ok ()) [] = some (1, [configErrorLine]) :=
  ⟨exit_code_policy.1 (some "k") none (fun _ => .ok ()) ["q"] 0 []
      (exit_code_policy.2.2.1 "k" (fun _ => .ok ()) "q" [] (by decide)),
   exit_code_policy.2.1 "k" "Paris" (fun _ => .error "boom") [] "boom" rfl,
   exit_code_policy.2.2.1 "k" (fun _ => .ok ()) "q" [] (by decide),
   exit_code_policy.2.2.2 none (fun _ => .ok ()) []⟩

/-- C8: decoding accepts a payload missing any subset of the three optional
fields, leaving exactly those fields empty; removing any required field of
the data model (top-level or nested, including a required field of a
condition-list entry) makes decoding fail; and such a decode failure
surfaces through the fetch path as a recoverable error reported with the
`Error:` prefix while the process exits 0. -/
theorem decode_optional_and_required_fields :
    (∀ ks ∈ optionalPaths.sublists,
        (decodeWeatherData (ks.foldl eraseAt examplePayload)).isOk = true)
    ∧ (∃ w, decodeWeatherData (optionalPaths.foldl eraseAt examplePayload) = .ok w
        ∧ w.main.sea_level = none ∧ w.main.grnd_level = none ∧ w.wind.gust = none)
    ∧ (∀ ps ∈ requiredPaths,
        (decodeWeatherData (eraseAt examplePayload ps)).isOk = false)
    ∧ (decodeWeatherData (Json.setField examplePayload "weather"
        (.arr [.obj [("id", .num 500), ("description", .str "x"),
                     ("icon", .str "y")]]))).isOk = false
    ∧ (∀ (key : String) (stdin : List String),
        mainModel (some key) (some "Pune")
          (fun c =>
            match get_city_weather c 200 (eraseAt examplePayload ["main", "temp"]) with
            | .ok _ => .ok ()
            | .error e => .error (fetchMessage c e))
          stdin
        = some (0, ["Error: " ++ fetchMessage "Pune"
            (.decodeError "missing field `temp`")])) := by
  refine ⟨by decide, ⟨_, rfl, rfl, rfl, rfl⟩, by decide, by decide, ?_⟩
  intro key stdin
  rfl

/-- Witness for C8: the full payload decodes, dropping a required field
fails, and the decode failure leaves the exit code at 0. -/
theorem decode_optional_and_required_fields_witness :
    (decodeWeatherData (([] : List (List String)).foldl eraseAt examplePayload)).isOk = true
    ∧ (decodeWeatherData (eraseAt examplePayload ["coord"])).isOk = false
    ∧ mainModel (some "k") (some "Pune")
        (fun c =>
          match get_city_weather c 200 (eraseAt examplePayload ["main", "temp"]) with
          | .ok _ => .ok ()
          | .error e => .error (fetchMessage c e))
        []
      = some (0, ["Error: " ++ fetchMessage "Pune"
          (.decodeError "missing field `temp`")]) :=
  ⟨decode_optional_and_required_fields.1 [] (by decide),
   decode_optional_and_required_fields.2.2.1 ["coord"] (by decide),
   decode_optional_and_required_fields.2.2.2.2 "k" []⟩

end WeatherCli
